import Mathlib

/-!
Verification development for the UniProtMapper repository.

The repository sources available are `src/UniProtMapper/uniprot_kb_fields.py`
(the concrete query-field classes), `src/UniProtMapper/cli.py` (the command
line entry point) and `tests/test_idmapping_api.py`.  The field base classes
(`field_base_classes.py`) and the job client (`ProtMapper` /
`UniProtRetriever`) are imported by those files but their code is not part of
the sources; where a definition embeds one of those missing pieces it is
modelled from the specification document and its doc comment says so.
-/

namespace UniProtMapper

/-- Split a character list on whitespace, accumulating the characters of the
current (reversed) token; empty tokens are dropped. -/
def splitWsChars : List Char → List Char → List String
  | [], acc => if acc = [] then [] else [String.mk acc.reverse]
  | c :: cs, acc =>
    if c.isWhitespace then
      (if acc = [] then [] else [String.mk acc.reverse]) ++ splitWsChars cs []
    else
      splitWsChars cs (c :: acc)

/-- Python `str.split()` with no argument: split on whitespace and drop the
empty fragments produced by leading, trailing or repeated whitespace. -/
def splitWs (s : String) : List String :=
  splitWsChars s.data []

/-- Modelled from the spec: the `FieldExpression` / `CompoundExpression` tree
of `field_base_classes.py`, which is missing from the sources.  Leaf variants
are SimpleField, BooleanField, QuoteField, RangeField, DateRangeField and
XRefCountField; compound nodes are the binary AND/OR and the unary NOT.
Range bounds are kept in already-rendered form (an integer rendered in
decimal, an ISO date, or the wildcard `*`). -/
inductive FieldExpr where
  | simple (field_name value : String)
  | boolean (field_name : String) (value : Bool)
  | quote (field_name value : String)
  | range (field_name low high : String)
  | dateRange (field_name low high : String)
  | xrefCount (field_name low high : String)
  | and (a b : FieldExpr)
  | or (a b : FieldExpr)
  | not (a : FieldExpr)
  deriving DecidableEq, Repr

/-- A token whose first character is `-`, marking an exclusion. -/
def isExclusionToken (t : String) : Bool :=
  match t.data with
  | c :: _ => c = '-'
  | [] => false

/-- Modelled from the spec: QuoteField quoting is suppressed when the value,
split on whitespace, contains a token starting with `-` (exclusion) or a token
that is the bare wildcard `*`. -/
def quotingSuppressed (value : String) : Bool :=
  (splitWs value).any (fun t => isExclusionToken t || t = "*")

/-- Modelled from the spec: XRefCountField normalizes its field name to a
cross-reference-count field; a leading `xref_` supplied by the caller is
stripped before the `xref_count_` key is formed. -/
def normalizeXrefCount (field_name : String) : String :=
  match field_name.data with
  | 'x' :: 'r' :: 'e' :: 'f' :: '_' :: rest => "xref_count_" ++ String.mk rest
  | _ => "xref_count_" ++ field_name

/-- Modelled from the spec: the QueryCompiler of `field_base_classes.py`,
missing from the sources.  SimpleField renders as `field_name:value`,
BooleanField as `field_name:true` or `field_name:false`, QuoteField as
`field_name:"value"` unless quoting is suppressed (then the value is emitted
unquoted and space-joined), the range fields as `field_name:[low TO high]`,
and the combinators parenthesize their children: `(a) AND (b)`, `(a) OR (b)`,
`NOT (a)`. -/
def compile : FieldExpr → String
  | .simple f v => f ++ ":" ++ v
  | .boolean f v => f ++ ":" ++ (if v then "true" else "false")
  | .quote f v =>
      if quotingSuppressed v then
        f ++ ":" ++ String.intercalate " " (splitWs v)
      else
        f ++ ":\"" ++ v ++ "\""
  | .range f lo hi => f ++ ":[" ++ lo ++ " TO " ++ hi ++ "]"
  | .dateRange f lo hi => f ++ ":[" ++ lo ++ " TO " ++ hi ++ "]"
  | .xrefCount f lo hi => normalizeXrefCount f ++ ":[" ++ lo ++ " TO " ++ hi ++ "]"
  | .and a b => "(" ++ compile a ++ ") AND (" ++ compile b ++ ")"
  | .or a b => "(" ++ compile a ++ ") OR (" ++ compile b ++ ")"
  | .not a => "NOT (" ++ compile a ++ ")"

/-- A numeric range bound: an integer or the wildcard `*`. -/
inductive RangeBound where
  | int (n : Int)
  | wildcard
  deriving DecidableEq, Repr

/-- Render a bound the way the query string shows it. -/
def RangeBound.render : RangeBound → String
  | .int n => toString n
  | .wildcard => "*"

/-- Errors raised by the field constructors and the job client. -/
inductive FieldError where
  | invalidRange
  deriving DecidableEq, Repr

/-- Modelled from the spec: the RangeField constructor of
`field_base_classes.py`, missing from the sources.  Constructing a range with
both bounds equal to the wildcard fails with InvalidRangeError. -/
def mkRangeField (field_name : String) (lo hi : RangeBound) :
    Except FieldError FieldExpr :=
  if lo = RangeBound.wildcard ∧ hi = RangeBound.wildcard then
    .error .invalidRange
  else
    .ok (.range field_name lo.render hi.render)

/-- Modelled from the spec: the DateRangeField constructor of
`field_base_classes.py`, missing from the sources.  Bounds are ISO dates or
the wildcard; both bounds being the wildcard fails with InvalidRangeError. -/
def mkDateRangeField (field_name lo hi : String) :
    Except FieldError FieldExpr :=
  if lo = "*" ∧ hi = "*" then .error .invalidRange
  else .ok (.dateRange field_name lo hi)

/-- Modelled from the spec: the XRefCountField constructor of
`field_base_classes.py`, missing from the sources.  Same bound validation as
RangeField, but the caller supplies the field key. -/
def mkXRefCountField (field_name : String) (lo hi : RangeBound) :
    Except FieldError FieldExpr :=
  if lo = RangeBound.wildcard ∧ hi = RangeBound.wildcard then
    .error .invalidRange
  else
    .ok (.xrefCount field_name lo.render hi.render)

/-- The remote field key stored in a leaf expression. -/
def fieldNameOf : FieldExpr → Option String
  | .simple f _ => some f
  | .boolean f _ => some f
  | .quote f _ => some f
  | .range f _ _ => some f
  | .dateRange f _ _ => some f
  | .xrefCount f _ _ => some f
  | .and _ _ => none
  | .or _ _ => none
  | .not _ => none

/-! ### The concrete field classes of `uniprot_kb_fields.py`

Each class fixes the remote field key itself and takes only the value(s)
from the caller; `XRefCount` is the one class whose constructor takes the
field key as an argument. -/

/-- `Active(field_value)`: BooleanField with fixed key `active`. -/
def Active (field_value : Bool) : FieldExpr := .boolean "active" field_value

/-- `Fragment(field_value)`: BooleanField with fixed key `fragment`. -/
def Fragment (field_value : Bool) : FieldExpr := .boolean "fragment" field_value

/-- `Reviewed(field_value)`: BooleanField with fixed key `reviewed`. -/
def Reviewed (field_value : Bool) : FieldExpr := .boolean "reviewed" field_value

/-- `IsIsoform(field_value)`: BooleanField with fixed key `is_isoform`. -/
def IsIsoform (field_value : Bool) : FieldExpr := .boolean "is_isoform" field_value

/-- `ProteinName(field_value)`: QuoteField with fixed key `protein_name`. -/
def ProteinName (field_value : String) : FieldExpr := .quote "protein_name" field_value

/-- `OrganismName(field_value)`: QuoteField with fixed key `organism_name`. -/
def OrganismName (field_value : String) : FieldExpr := .quote "organism_name" field_value

/-- `DateCreated(from_date, to_date)`: DateRangeField with fixed key `date_created`. -/
def DateCreated (from_date to_date : String) : Except FieldError FieldExpr :=
  mkDateRangeField "date_created" from_date to_date

/-- `DateModified(from_date, to_date)`: DateRangeField with fixed key `date_modified`. -/
def DateModified (from_date to_date : String) : Except FieldError FieldExpr :=
  mkDateRangeField "date_modified" from_date to_date

/-- `DateSequenceModified(from_date, to_date)`: DateRangeField with fixed key
`date_sequence_modified`. -/
def DateSequenceModified (from_date to_date : String) : Except FieldError FieldExpr :=
  mkDateRangeField "date_sequence_modified" from_date to_date

/-- `Length(from_value, to_value)`: RangeField with fixed key `length`. -/
def Length (from_value to_value : RangeBound) : Except FieldError FieldExpr :=
  mkRangeField "length" from_value to_value

/-- `Mass(from_value, to_value)`: RangeField with fixed key `mass`. -/
def Mass (from_value to_value : RangeBound) : Except FieldError FieldExpr :=
  mkRangeField "mass" from_value to_value

/-- `XRefCount(field_name, from_value, to_value)`: XRefCountField taking the
field key from the caller. -/
def XRefCount (field_name : String) (from_value to_value : RangeBound) :
    Except FieldError FieldExpr :=
  mkXRefCountField field_name from_value to_value

/-- `Accession(field_value)`: SimpleField with fixed key `accession`. -/
def Accession (field_value : String) : FieldExpr := .simple "accession" field_value

/-- `LitAuthor(field_value)`: SimpleField with fixed key `lit_author`. -/
def LitAuthor (field_value : String) : FieldExpr := .simple "lit_author" field_value

/-- `Chebi(field_value)`: SimpleField with fixed key `chebi`. -/
def Chebi (field_value : String) : FieldExpr := .simple "chebi" field_value

/-- `Database(field_value)`: SimpleField with fixed key `database`. -/
def Database (field_value : String) : FieldExpr := .simple "database" field_value

/-- `Xref(field_value)`: SimpleField with fixed key `xref`. -/
def Xref (field_value : String) : FieldExpr := .simple "xref" field_value

/-- `Ec(field_value)`: SimpleField with fixed key `ec`. -/
def Ec (field_value : String) : FieldExpr := .simple "ec" field_value

/-- `Existence(field_value)`: SimpleField with fixed key `existence`. -/
def Existence (field_value : String) : FieldExpr := .simple "existence" field_value

/-- `Family(field_value)`: SimpleField with fixed key `family`. -/
def Family (field_value : String) : FieldExpr := .simple "family" field_value

/-- `Gene(field_value)`: SimpleField with fixed key `gene`. -/
def Gene (field_value : String) : FieldExpr := .simple "gene" field_value

/-- `GeneExact(field_value)`: SimpleField with fixed key `gene_exact`. -/
def GeneExact (field_value : String) : FieldExpr := .simple "gene_exact" field_value

/-- `Go(field_value)`: SimpleField with fixed key `go`. -/
def Go (field_value : String) : FieldExpr := .simple "go" field_value

/-- `VirusHostName(field_value)`: SimpleField with fixed key `virus_host_name`. -/
def VirusHostName (field_value : String) : FieldExpr := .simple "virus_host_name" field_value

/-- `VirusHostId(field_value)`: SimpleField with fixed key `virus_host_id`. -/
def VirusHostId (field_value : String) : FieldExpr := .simple "virus_host_id" field_value

/-- `AccessionId(field_value)`: SimpleField with fixed key `accession_id`. -/
def AccessionId (field_value : String) : FieldExpr := .simple "accession_id" field_value

/-- `Inchikey(field_value)`: SimpleField with fixed key `inchikey`. -/
def Inchikey (field_value : String) : FieldExpr := .simple "inchikey" field_value

/-- `Interactor(field_value)`: SimpleField with fixed key `interactor`. -/
def Interactor (field_value : String) : FieldExpr := .simple "interactor" field_value

/-- `Keyword(field_value)`: SimpleField with fixed key `keyword`. -/
def Keyword (field_value : String) : FieldExpr := .simple "keyword" field_value

/-- `CcMassSpectrometry(field_value)`: SimpleField with fixed key
`cc_mass_spectrometry`. -/
def CcMassSpectrometry (field_value : String) : FieldExpr :=
  .simple "cc_mass_spectrometry" field_value

/-- `Organelle(field_value)`: SimpleField with fixed key `organelle`. -/
def Organelle (field_value : String) : FieldExpr := .simple "organelle" field_value

/-- `OrganismId(field_value)`: SimpleField with fixed key `organism_id`. -/
def OrganismId (field_value : String) : FieldExpr := .simple "organism_id" field_value

/-- `Plasmid(field_value)`: SimpleField with fixed key `plasmid`. -/
def Plasmid (field_value : String) : FieldExpr := .simple "plasmid" field_value

/-- `Proteome(field_value)`: SimpleField with fixed key `proteome`. -/
def Proteome (field_value : String) : FieldExpr := .simple "proteome" field_value

/-- `Proteomecomponent(field_value)`: SimpleField with fixed key
`proteomecomponent`. -/
def Proteomecomponent (field_value : String) : FieldExpr :=
  .simple "proteomecomponent" field_value

/-- `SecAcc(field_value)`: SimpleField with fixed key `sec_acc`. -/
def SecAcc (field_value : String) : FieldExpr := .simple "sec_acc" field_value

/-- `Scope(field_value)`: SimpleField with fixed key `scope`. -/
def Scope (field_value : String) : FieldExpr := .simple "scope" field_value

/-- `TaxonomyName(field_value)`: SimpleField with fixed key `taxonomy_name`. -/
def TaxonomyName (field_value : String) : FieldExpr := .simple "taxonomy_name" field_value

/-- `TaxonomyId(field_value)`: SimpleField with fixed key `taxonomy_id`. -/
def TaxonomyId (field_value : String) : FieldExpr := .simple "taxonomy_id" field_value

/-- `Tissue(field_value)`: SimpleField with fixed key `tissue`. -/
def Tissue (field_value : String) : FieldExpr := .simple "tissue" field_value

/-- `CcWebresource(field_value)`: SimpleField with fixed key `cc_webresource`. -/
def CcWebresource (field_value : String) : FieldExpr := .simple "cc_webresource" field_value

/-! ### The identifier-mapping job client

The `ProtMapper` / `UniProtRetriever` code is imported by `cli.py` and the
tests but is not among the sources; the definitions below are modelled from
the specification of the JobClient. -/

/-- One row of the result table: the resolved identifier and the values of
the requested fields. -/
structure Row where
  id : String
  cols : List String
  deriving DecidableEq, Repr

/-- The FieldCatalog collaborator: the set of valid field names and the set
of supported source/target databases. -/
structure FieldCatalog where
  supported_fields : List String
  supported_dbs : List String
  deriving Repr

/-- Validation errors raised by `submit`. -/
inductive SubmitError where
  | invalidDatabase (db : String)
  | invalidField (offending : List String)
  deriving DecidableEq, Repr

/-- Modelled from the spec: the chunking step of `submit` (the job client is
missing from the sources).  The identifier batch is split, in order, into
consecutive chunks of at most `n` identifiers; boundaries depend on count
only. -/
def chunkList (n : ℕ) : List α → List (List α)
  | [] => []
  | x :: xs => (x :: xs.take (n - 1)) :: chunkList n (xs.drop (n - 1))
termination_by l => l.length
decreasing_by simp [List.length_drop]; omega

/-- Modelled from the spec: `submit` of the job client, missing from the
sources.  It validates `from_db` and `to_db` against the supported-database
set (InvalidDatabaseError), then the requested fields against the field-name
set (InvalidFieldError listing the offending names), and only then chunks the
identifiers and issues one transport request per chunk.  The second component
is the transport trace: the list of chunk submissions actually sent. -/
def submit (cat : FieldCatalog) (batchLimit : ℕ) (identifiers : List String)
    (from_db to_db : String) (fields : List String) :
    Except SubmitError (List (List String)) × List (List String) :=
  if from_db ∈ cat.supported_dbs then
    if to_db ∈ cat.supported_dbs then
      match fields.filter (fun f => f ∉ cat.supported_fields) with
      | [] =>
          let chunks := chunkList batchLimit identifiers
          (.ok chunks, chunks)
      | o :: os => (.error (.invalidField (o :: os)), [])
    else (.error (.invalidDatabase to_db), [])
  else (.error (.invalidDatabase from_db), [])

/-- The identifiers present in the fetched rows. -/
def resolvedIds (rows : List Row) : List String := rows.map Row.id

/-- The final output: the table of resolved rows and the identifiers that
never resolved. -/
structure MappingResult where
  table : List Row
  failed : List String
  deriving DecidableEq, Repr

/-- Modelled from the spec: `reconcile` of the job client, missing from the
sources.  `failed` is the set difference of the submitted identifiers and the
identifiers present in the fetched rows; string comparison is case-sensitive
and a duplicated submitted identifier counts as resolved when any occurrence
resolves (the difference is computed on identifiers, deduplicated). -/
def reconcile (submitted : List String) (rows : List Row) : MappingResult :=
  { table := rows
    failed := (submitted.filter (fun i => i ∉ resolvedIds rows)).dedup }

/-- Modelled from the spec: the multi-chunk merge, missing from the sources.
Per-chunk tables are concatenated in chunk order and the failed-identifier
sets are unioned. -/
def mergeResults : List MappingResult → MappingResult
  | [] => { table := [], failed := [] }
  | r :: rs =>
      let m := mergeResults rs
      { table := r.table ++ m.table, failed := (r.failed ++ m.failed).dedup }

/-- Modelled from the spec: one job per chunk, merged (the job client is
missing from the sources). -/
def runChunks (runJob : List String → MappingResult) (chunks : List (List String)) :
    MappingResult :=
  mergeResults (chunks.map runJob)

/-- The status the remote job endpoint reports. -/
inductive JobStatus where
  | submitted
  | running
  | finished
  | failed
  deriving DecidableEq, Repr

/-- The states of the job state machine. -/
inductive JobState where
  | submitting
  | polling
  | resolvingRedirect
  | paginating
  | done
  | exhausted
  deriving DecidableEq, Repr

/-- Modelled from the spec: the backoff policy of the poll loop, missing from
the sources.  The wait between attempt `k` and `k+1` is
`pooling_interval * (1 + backoff_factor) ^ k`. -/
def waitBetween (pooling_interval backoff_factor : ℚ) (k : ℕ) : ℚ :=
  pooling_interval * (1 + backoff_factor) ^ k

/-- Modelled from the spec: the poll loop of the job client, missing from the
sources.  `status k` is the outcome of the k-th status check; the loop
performs checks while budget remains, stopping early when FINISHED is seen.
It returns the number of checks performed and the state reached
(`resolvingRedirect` on FINISHED, `exhausted` when the budget runs out). -/
def pollAux (status : ℕ → JobStatus) : ℕ → ℕ → ℕ × JobState
  | 0, attempts => (attempts, .exhausted)
  | budget + 1, attempts =>
    match status attempts with
    | .finished => (attempts + 1, .resolvingRedirect)
    | _ => pollAux status budget (attempts + 1)

/-- Modelled from the spec: `poll(job)` with a fresh retry budget of
`total_retries`. -/
def poll (status : ℕ → JobStatus) (total_retries : ℕ) : ℕ × JobState :=
  pollAux status total_retries 0

/-- Modelled from the spec: the pagination loop, missing from the sources.
Each element of the outcome list is the result of fetching one page through
the shared retry loop: `some rows` when the page was fetched within the
retry budget, `none` when the retry budget was exhausted at that page.
Fetched rows accumulate in order; exhaustion keeps the rows fetched so far. -/
def paginateFrom (acc : List Row) : List (Option (List Row)) → List Row × JobState
  | [] => (acc, .done)
  | none :: _ => (acc, .exhausted)
  | some rows :: rest => paginateFrom (acc ++ rows) rest

/-- Modelled from the spec: `paginate(job)` starting with no rows. -/
def paginate (outcomes : List (Option (List Row))) : List Row × JobState :=
  paginateFrom [] outcomes

/-- Modelled from the spec: the result returned after pagination, even on
exhaustion — the rows fetched so far are reconciled against the submitted
identifiers instead of being discarded. -/
def paginateResult (submitted : List String) (outcomes : List (Option (List Row))) :
    MappingResult × JobState :=
  let p := paginate outcomes
  (reconcile submitted p.1, p.2)

/-! ### The command line entry point, from `cli.py` -/

/-- The arguments `main` passes to `UniProtRetriever` in `cli.py`:
`pooling_interval=3`. -/
def cliPoolingInterval : ℚ := 3

/-- The arguments `main` passes to `UniProtRetriever` in `cli.py`:
`total_retries=10`. -/
def cliTotalRetries : ℕ := 10

/-- The arguments `main` passes to `UniProtRetriever` in `cli.py`:
`backoff_factor=0.5`. -/
def cliBackoffFactor : ℚ := 1 / 2

/-- What the output block of `main` does with the result. -/
inductive OutputAction where
  | printedToStdout
  | wroteFile (path : String)
  | raisedFileExists (message : String)
  | didNothing
  deriving DecidableEq, Repr

/-- The output block of `main` in `cli.py`: when `--output` is given, the
branch `if not output_path.exists()` is taken first; inside it,
`if not args.overwrite` raises `FileExistsError(f"Input file {output_path}
already exists.")`, otherwise `result.to_csv(...)` writes the file; when the
path exists nothing happens.  Without `--output` the CSV goes to stdout. -/
def cliOutputStep (output : Option String) (pathExists overwrite : Bool) :
    OutputAction :=
  match output with
  | none => .printedToStdout
  | some path =>
    if ¬ pathExists then
      if ¬ overwrite then
        .raisedFileExists ("Input file " ++ path ++ " already exists.")
      else
        .wroteFile path
    else
      .didNothing

end UniProtMapper

namespace UniProtMapper

/-- Claim C1: a QuoteField whose raw value, split on whitespace, contains a token
starting with `-` or a token equal to the bare wildcard `*` compiles with the
value unquoted and space-joined; every other QuoteField value is wrapped in
double quotes as a literal phrase. -/
theorem claim_C1_quoteField_policy (field_name value : String) :
    ((∃ t ∈ splitWs value, isExclusionToken t = true ∨ t = "*") →
      compile (.quote field_name value) =
        field_name ++ ":" ++ String.intercalate " " (splitWs value)) ∧
    ((¬ ∃ t ∈ splitWs value, isExclusionToken t = true ∨ t = "*") →
      compile (.quote field_name value) = field_name ++ ":\"" ++ value ++ "\"") := by
  constructor
  · rintro ⟨t, ht, hp⟩
    have hs : quotingSuppressed value = true := by
      simp only [quotingSuppressed, List.any_eq_true, Bool.or_eq_true, decide_eq_true_eq]
      exact ⟨t, ht, hp⟩
    simp [compile, hs]
  · intro h
    have hs : quotingSuppressed value = false := by
      simp only [quotingSuppressed, List.any_eq_false, Bool.or_eq_false_iff,
        Bool.not_eq_true, decide_eq_false_iff_not]
      intro t ht
      constructor
      · by_contra hb
        exact h ⟨t, ht, Or.inl (by revert hb; cases isExclusionToken t <;> simp)⟩
      · intro he
        exact h ⟨t, ht, Or.inr he⟩
    simp [compile, hs]

theorem claim_C1_witness :
    compile (.quote "protein_name" "kinase - phosphatase") =
        "protein_name:kinase - phosphatase" ∧
    compile (.quote "protein_name" "kinase") = "protein_name:\"kinase\"" :=
  ⟨(claim_C1_quoteField_policy "protein_name" "kinase - phosphatase").1 (by decide),
   (claim_C1_quoteField_policy "protein_name" "kinase").2 (by decide)⟩

/-- Claim C2: AND compiles to `(a) AND (b)`, OR to `(a) OR (b)`, NOT to `NOT (a)`,
children compiled left to right. -/
theorem claim_C2_combinators (a b : FieldExpr) :
    compile (.and a b) = "(" ++ compile a ++ ") AND (" ++ compile b ++ ")" ∧
    compile (.or a b) = "(" ++ compile a ++ ") OR (" ++ compile b ++ ")" ∧
    compile (.not a) = "NOT (" ++ compile a ++ ")" :=
  ⟨rfl, rfl, rfl⟩

/-- Claim C3: both bounds wildcard fails with InvalidRangeError for RangeField,
DateRangeField and XRefCountField; `RangeField("mass", 100, "*")` succeeds
and compiles to `mass:[100 TO *]`. -/
theorem claim_C3_range_wildcard (f : String) :
    mkRangeField f .wildcard .wildcard = .error .invalidRange ∧
    mkDateRangeField f "*" "*" = .error .invalidRange ∧
    mkXRefCountField f .wildcard .wildcard = .error .invalidRange ∧
    (mkRangeField "mass" (.int 100) .wildcard).map compile = .ok "mass:[100 TO *]" := by
  refine ⟨?_, ?_, ?_, rfl⟩ <;> simp [mkRangeField, mkDateRangeField, mkXRefCountField]

end UniProtMapper

namespace UniProtMapper

/-- Claim C4: an unknown field name makes submit fail with InvalidFieldError
listing the offending names, an unsupported source or target database makes
it fail with InvalidDatabaseError, and in every failing case the transport
trace is empty — no transport request is issued. -/
theorem claim_C4_validation_before_transport (cat : FieldCatalog) (batchLimit : ℕ)
    (identifiers : List String) (from_db to_db : String) (fields : List String) :
    (from_db ∈ cat.supported_dbs → to_db ∈ cat.supported_dbs →
      fields.filter (fun f => f ∉ cat.supported_fields) ≠ [] →
      submit cat batchLimit identifiers from_db to_db fields =
        (.error (.invalidField (fields.filter (fun f => f ∉ cat.supported_fields))), [])) ∧
    (from_db ∉ cat.supported_dbs →
      submit cat batchLimit identifiers from_db to_db fields =
        (.error (.invalidDatabase from_db), [])) ∧
    (from_db ∈ cat.supported_dbs → to_db ∉ cat.supported_dbs →
      submit cat batchLimit identifiers from_db to_db fields =
        (.error (.invalidDatabase to_db), [])) := by
  refine ⟨?_, ?_, ?_⟩
  · intro h1 h2 h3
    unfold submit
    rw [if_pos h1, if_pos h2]
    cases hf : fields.filter (fun f => f ∉ cat.supported_fields) with
    | nil => exact absurd hf h3
    | cons o os => simp
  · intro h1
    unfold submit
    rw [if_neg h1]
  · intro h1 h2
    unfold submit
    rw [if_pos h1, if_neg h2]

theorem claim_C4_witness :
    submit { supported_fields := ["accession", "id"],
             supported_dbs := ["UniProtKB_AC-ID", "UniProtKB"] }
        500 ["P30542", "Q16678", "Q02880"] "UniProtKB_AC-ID" "UniProtKB"
        ["invalid_field"] =
      (.error (.invalidField ["invalid_field"]), []) ∧
    submit { supported_fields := ["accession", "id"],
             supported_dbs := ["UniProtKB_AC-ID", "UniProtKB"] }
        500 ["P30542"] "InvalidDB" "UniProtKB" ["accession"] =
      (.error (.invalidDatabase "InvalidDB"), []) ∧
    submit { supported_fields := ["accession", "id"],
             supported_dbs := ["UniProtKB_AC-ID", "UniProtKB"] }
        500 ["P30542"] "UniProtKB_AC-ID" "InvalidDB" ["accession"] =
      (.error (.invalidDatabase "InvalidDB"), []) :=
  ⟨(claim_C4_validation_before_transport _ 500 _ _ _ _).1 (by decide) (by decide) (by decide),
   (claim_C4_validation_before_transport _ 500 _ _ _ _).2.1 (by decide),
   (claim_C4_validation_before_transport _ 500 _ _ _ _).2.2 (by decide) (by decide)⟩

/-- Helper: the number of status checks the poll loop performs starting from
`attempts` checks already done is at most `attempts + budget`. -/
theorem pollAux_fst_le (status : ℕ → JobStatus) :
    ∀ budget attempts, (pollAux status budget attempts).1 ≤ attempts + budget := by
  intro budget
  induction budget with
  | zero => intro a; simp [pollAux]
  | succ b ih =>
    intro a
    show (pollAux status (b + 1) a).1 ≤ a + (b + 1)
    unfold pollAux
    cases status a with
    | finished => simp
    | submitted => exact le_trans (ih (a + 1)) (by omega)
    | running => exact le_trans (ih (a + 1)) (by omega)
    | failed => exact le_trans (ih (a + 1)) (by omega)

/-- Claim C5: the wait between attempt k and k+1 is
`pooling_interval * (1 + backoff_factor) ^ k` (3 * 1.5 ^ k for the cli
configuration), the waits are non-decreasing when the factors are
non-negative, and the poll loop never performs more than total_retries
status checks. -/
theorem claim_C5_backoff (k : ℕ) (p b : ℚ) (status : ℕ → JobStatus) (total_retries : ℕ) :
    waitBetween cliPoolingInterval cliBackoffFactor k = 3 * (3 / 2) ^ k ∧
    (0 ≤ p → 0 ≤ b → waitBetween p b k ≤ waitBetween p b (k + 1)) ∧
    (poll status total_retries).1 ≤ total_retries := by
  refine ⟨?_, ?_, ?_⟩
  · unfold waitBetween cliPoolingInterval cliBackoffFactor
    norm_num
  · intro hp hb
    unfold waitBetween
    have h1 : (1 : ℚ) ≤ 1 + b := by linarith
    exact mul_le_mul_of_nonneg_left (pow_le_pow_right₀ h1 (Nat.le_succ k)) hp
  · have := pollAux_fst_le status total_retries 0
    simpa [poll] using this

theorem claim_C5_witness :
    waitBetween cliPoolingInterval cliBackoffFactor 2 = 3 * (3 / 2) ^ 2 ∧
    waitBetween 3 (1 / 2) 0 ≤ waitBetween 3 (1 / 2) 1 ∧
    (poll (fun _ => .running) cliTotalRetries).1 ≤ cliTotalRetries :=
  ⟨(claim_C5_backoff 2 3 (1 / 2) (fun _ => .running) cliTotalRetries).1,
   (claim_C5_backoff 0 3 (1 / 2) (fun _ => .running) cliTotalRetries).2.1
      (le_of_lt three_pos) (le_of_lt one_half_pos),
   (claim_C5_backoff 0 3 (1 / 2) (fun _ => .running) cliTotalRetries).2.2⟩

end UniProtMapper

namespace UniProtMapper

/-- Claim C6: failed is the set of submitted identifiers with no row, comparison is
case-sensitive, a duplicated submitted identifier is resolved when any
occurrence resolves; the example with submitted A, B, C and resolved A, C
gives rows for A and C and failed B. -/
theorem claim_C6_reconcile (submitted : List String) (rows : List Row) (i : String) :
    (i ∈ (reconcile submitted rows).failed ↔ i ∈ submitted ∧ i ∉ resolvedIds rows) ∧
    (reconcile submitted rows).table = rows ∧
    reconcile ["A", "B", "C"] [⟨"A", []⟩, ⟨"C", []⟩] =
      { table := [⟨"A", []⟩, ⟨"C", []⟩], failed := ["B"] } ∧
    reconcile ["a"] [⟨"A", []⟩] = { table := [⟨"A", []⟩], failed := ["a"] } ∧
    reconcile ["A", "A"] [⟨"A", []⟩] = { table := [⟨"A", []⟩], failed := [] } := by
  refine ⟨?_, rfl, by decide, by decide, by decide⟩
  simp [reconcile, List.mem_dedup, List.mem_filter]

/-- Helper: running the pagination loop over a block of successfully fetched
pages followed by an exhausted page fetch accumulates exactly the rows of the
successful pages and ends in the EXHAUSTED state. -/
theorem paginateFrom_exhausted (rest : List (Option (List Row))) :
    ∀ (pages : List (List Row)) (acc : List Row),
      paginateFrom acc (pages.map some ++ none :: rest) =
        (acc ++ pages.flatten, .exhausted) := by
  intro pages
  induction pages with
  | nil => intro acc; simp [paginateFrom]
  | cons p ps ih =>
    intro acc
    rw [List.map_cons, List.cons_append, paginateFrom, ih (acc ++ p),
      List.flatten_cons, List.append_assoc]

/-- Claim C7: when pagination fetches some pages and then exhausts the retry budget
on a later page, the result keeps all rows of the fetched pages, reports the
identifiers not yet seen as failed, and the job ends EXHAUSTED. -/
theorem claim_C7_exhaustion_keeps_pages (submitted : List String)
    (pages : List (List Row)) (rest : List (Option (List Row))) :
    paginateResult submitted (pages.map some ++ none :: rest) =
      (reconcile submitted pages.flatten, .exhausted) ∧
    (paginateResult submitted (pages.map some ++ none :: rest)).1.table =
      pages.flatten := by
  have h := paginateFrom_exhausted rest pages []
  constructor
  · simp [paginateResult, paginate, h]
  · simp [paginateResult, paginate, h, reconcile]

/-- Helper: every chunk produced by chunkList has at most n elements. -/
theorem chunkList_mem_length_le (n : ℕ) (hn : 1 ≤ n) (l : List α) :
    ∀ c ∈ chunkList n l, c.length ≤ n := by
  induction l using chunkList.induct n with
  | case1 => simp [chunkList]
  | case2 x xs ih =>
    intro c hc
    rw [chunkList, List.mem_cons] at hc
    rcases hc with rfl | hc
    · simp only [List.length_cons, List.length_take]
      omega
    · exact ih c hc

/-- Helper: the chunks concatenate back to the original batch, in order. -/
theorem chunkList_flatten (n : ℕ) (l : List α) :
    (chunkList n l).flatten = l := by
  induction l using chunkList.induct n with
  | case1 => simp [chunkList]
  | case2 x xs ih =>
    rw [chunkList]
    simp only [List.flatten_cons]
    rw [ih]
    simp [List.take_append_drop]

/-- Helper: the merged table is the concatenation of the per-chunk tables. -/
theorem mergeResults_table (rs : List MappingResult) :
    (mergeResults rs).table = (rs.map MappingResult.table).flatten := by
  induction rs with
  | nil => rfl
  | cons r rest ih => simp [mergeResults, ih]

/-- Helper: the merged failed set is the union of the per-chunk failed sets. -/
theorem mergeResults_failed_mem (rs : List MappingResult) (x : String) :
    x ∈ (mergeResults rs).failed ↔ ∃ r ∈ rs, x ∈ r.failed := by
  induction rs with
  | nil => simp [mergeResults]
  | cons r rest ih => simp [mergeResults, List.mem_dedup, ih]

/-- Claim C8: submit splits the batch into order-preserving chunks of at most the
batch ceiling, determined by count only (their concatenation is the batch),
and the multi-chunk result is the concatenation of the per-chunk tables
together with the union of the per-chunk failed sets. -/
theorem claim_C8_chunking_merge (n : ℕ) (hn : 1 ≤ n) (ids : List String)
    (runJob : List String → MappingResult) (x : String) :
    (∀ c ∈ chunkList n ids, c.length ≤ n) ∧
    (chunkList n ids).flatten = ids ∧
    (runChunks runJob (chunkList n ids)).table =
      ((chunkList n ids).map (fun c => (runJob c).table)).flatten ∧
    (x ∈ (runChunks runJob (chunkList n ids)).failed ↔
      ∃ c ∈ chunkList n ids, x ∈ (runJob c).failed) := by
  refine ⟨chunkList_mem_length_le n hn ids, chunkList_flatten n ids, ?_, ?_⟩
  · simp [runChunks, mergeResults_table, List.map_map, Function.comp_def]
  · simp [runChunks, mergeResults_failed_mem]

theorem claim_C8_witness :
    (∀ c ∈ chunkList 2 ["A", "B", "C"], c.length ≤ 2) ∧
    (chunkList 2 ["A", "B", "C"]).flatten = ["A", "B", "C"] :=
  ⟨(claim_C8_chunking_merge 2 (by decide) ["A", "B", "C"]
      (fun c => { table := [], failed := c }) "A").1,
   (claim_C8_chunking_merge 2 (by decide) ["A", "B", "C"]
      (fun c => { table := [], failed := c }) "A").2.1⟩

end UniProtMapper

namespace UniProtMapper

/-- Helper: a successfully constructed DateRangeField stores the field key it
was given. -/
theorem mkDateRangeField_ok_name (f d1 d2 : String) (e : FieldExpr)
    (h : mkDateRangeField f d1 d2 = .ok e) : fieldNameOf e = some f := by
  unfold mkDateRangeField at h
  split at h
  · exact absurd h (by simp)
  · injection h with h
    subst h
    rfl

/-- Helper: a successfully constructed RangeField stores the field key it was
given. -/
theorem mkRangeField_ok_name (f : String) (lo hi : RangeBound) (e : FieldExpr)
    (h : mkRangeField f lo hi = .ok e) : fieldNameOf e = some f := by
  unfold mkRangeField at h
  split at h
  · exact absurd h (by simp)
  · injection h with h
    subst h
    rfl

/-- Helper: a successfully constructed XRefCountField stores the caller-given
field key. -/
theorem mkXRefCountField_ok_name (f : String) (lo hi : RangeBound) (e : FieldExpr)
    (h : mkXRefCountField f lo hi = .ok e) : fieldNameOf e = some f := by
  unfold mkXRefCountField at h
  split at h
  · exact absurd h (by simp)
  · injection h with h
    subst h
    rfl

/-- Claim C9: every pre-defined concrete field class stores its own fixed remote
field key and takes only values from the caller; XRefCount is the one field
type whose constructor takes an arbitrary field key, and no constructor
consults the FieldCatalog — construction succeeds for any field key. -/
theorem claim_C9_fixed_field_keys (b : Bool) (v d1 d2 : String)
    (lo hi : RangeBound) (f : String) (e : FieldExpr) :
    (DateCreated d1 d2 = .ok e → fieldNameOf e = some "date_created") ∧
    (DateModified d1 d2 = .ok e → fieldNameOf e = some "date_modified") ∧
    (DateSequenceModified d1 d2 = .ok e →
      fieldNameOf e = some "date_sequence_modified") ∧
    (Length lo hi = .ok e → fieldNameOf e = some "length") ∧
    (Mass lo hi = .ok e → fieldNameOf e = some "mass") ∧
    (XRefCount f lo hi = .ok e → fieldNameOf e = some f) ∧
    (¬ (lo = RangeBound.wildcard ∧ hi = RangeBound.wildcard) →
      ∃ x, XRefCount f lo hi = .ok x) ∧
    fieldNameOf (Active b) = some "active" ∧
    fieldNameOf (Fragment b) = some "fragment" ∧
    fieldNameOf (Reviewed b) = some "reviewed" ∧
    fieldNameOf (IsIsoform b) = some "is_isoform" ∧
    fieldNameOf (ProteinName v) = some "protein_name" ∧
    fieldNameOf (OrganismName v) = some "organism_name" ∧
    fieldNameOf (Accession v) = some "accession" ∧
    fieldNameOf (LitAuthor v) = some "lit_author" ∧
    fieldNameOf (Chebi v) = some "chebi" ∧
    fieldNameOf (Database v) = some "database" ∧
    fieldNameOf (Xref v) = some "xref" ∧
    fieldNameOf (Ec v) = some "ec" ∧
    fieldNameOf (Existence v) = some "existence" ∧
    fieldNameOf (Family v) = some "family" ∧
    fieldNameOf (Gene v) = some "gene" ∧
    fieldNameOf (GeneExact v) = some "gene_exact" ∧
    fieldNameOf (Go v) = some "go" ∧
    fieldNameOf (VirusHostName v) = some "virus_host_name" ∧
    fieldNameOf (VirusHostId v) = some "virus_host_id" ∧
    fieldNameOf (AccessionId v) = some "accession_id" ∧
    fieldNameOf (Inchikey v) = some "inchikey" ∧
    fieldNameOf (Interactor v) = some "interactor" ∧
    fieldNameOf (Keyword v) = some "keyword" ∧
    fieldNameOf (CcMassSpectrometry v) = some "cc_mass_spectrometry" ∧
    fieldNameOf (Organelle v) = some "organelle" ∧
    fieldNameOf (OrganismId v) = some "organism_id" ∧
    fieldNameOf (Plasmid v) = some "plasmid" ∧
    fieldNameOf (Proteome v) = some "proteome" ∧
    fieldNameOf (Proteomecomponent v) = some "proteomecomponent" ∧
    fieldNameOf (SecAcc v) = some "sec_acc" ∧
    fieldNameOf (Scope v) = some "scope" ∧
    fieldNameOf (TaxonomyName v) = some "taxonomy_name" ∧
    fieldNameOf (TaxonomyId v) = some "taxonomy_id" ∧
    fieldNameOf (Tissue v) = some "tissue" ∧
    fieldNameOf (CcWebresource v) = some "cc_webresource" := by
  refine ⟨mkDateRangeField_ok_name _ d1 d2 e, mkDateRangeField_ok_name _ d1 d2 e,
    mkDateRangeField_ok_name _ d1 d2 e, mkRangeField_ok_name _ lo hi e,
    mkRangeField_ok_name _ lo hi e, mkXRefCountField_ok_name f lo hi e, ?_,
    rfl, rfl, rfl, rfl, rfl, rfl, rfl, rfl, rfl, rfl, rfl, rfl, rfl, rfl, rfl,
    rfl, rfl, rfl, rfl, rfl, rfl, rfl, rfl, rfl, rfl, rfl, rfl, rfl, rfl, rfl,
    rfl, rfl, rfl, rfl, rfl⟩
  intro hw
  unfold XRefCount mkXRefCountField
  rw [if_neg hw]
  exact ⟨_, rfl⟩

theorem claim_C9_witness :
    fieldNameOf (FieldExpr.dateRange "date_created" "2020-01-01" "*") =
      some "date_created" ∧
    fieldNameOf (FieldExpr.xrefCount "pdb" "20" "*") = some "pdb" ∧
    (∃ x, XRefCount "some_unvalidated_key" (RangeBound.int 20) RangeBound.wildcard =
      .ok x) :=
  ⟨(claim_C9_fixed_field_keys true "v" "2020-01-01" "*" (RangeBound.int 20)
      RangeBound.wildcard "pdb"
      (FieldExpr.dateRange "date_created" "2020-01-01" "*")).1 rfl,
   (claim_C9_fixed_field_keys true "v" "2020-01-01" "*" (RangeBound.int 20)
      RangeBound.wildcard "pdb"
      (FieldExpr.xrefCount "pdb" "20" "*")).2.2.2.2.2.1 rfl,
   (claim_C9_fixed_field_keys true "v" "2020-01-01" "*" (RangeBound.int 20)
      RangeBound.wildcard "some_unvalidated_key"
      (FieldExpr.xrefCount "pdb" "20" "*")).2.2.2.2.2.2.1 (by decide)⟩

/-- Claim C10: with an output path given, the CSV is written exactly when the path
does not exist and overwrite is truthy; an existing path means nothing is
written and nothing is raised; a fresh path without overwrite raises
FileExistsError with a message claiming the file already exists. -/
theorem claim_C10_cli_output (path : String) (overwrite : Bool) :
    cliOutputStep (some path) true overwrite = .didNothing ∧
    cliOutputStep (some path) false false =
      .raisedFileExists ("Input file " ++ path ++ " already exists.") ∧
    (∀ pe ow : Bool, cliOutputStep (some path) pe ow = .wroteFile path ↔
      pe = false ∧ ow = true) := by
  refine ⟨?_, ?_, ?_⟩
  · simp [cliOutputStep]
  · simp [cliOutputStep]
  · intro pe ow
    cases pe <;> cases ow <;> simp [cliOutputStep]

end UniProtMapper
